import Mathlib

/-!
Verification of the Mandala Image Generator (`mandala.py`).

The development embeds the program's pure core and its submit/render
control flow as Lean definitions:

* `create_mandala_prompt` — the prompt template (source lines 63–80);
* `b64encodeBytes` / `create_download_link` — the export encoder
  (source lines 112–116), together with a decoder used to state the
  round-trip law;
* `effective_inspiration`, `handle_generate_click` — the example-picker
  plumbing and the generate-button handler of `main`
  (source lines 203–243), with the external OpenAI client and provider
  call supplied as oracle parameters;
* `render_result_panel` — the result column of `main`
  (source lines 249–255), with the HTTP download supplied as an oracle.
-/

/-- One Streamlit session state, holding exactly the four
`st.session_state` fields the program ever writes (lines 233, 239–241).
A field is `none` when the attribute has never been set
(`hasattr` is then false). -/
structure SessionState where
  current_prompt : Option String
  current_image_url : Option String
  current_inspiration : Option String
  current_num_axes : Option Nat
deriving DecidableEq

/-- The prompt template of `create_mandala_prompt` (lines 63–80): the
f-string is embedded as the concatenation, in order, of its literal
chunks and interpolations.  `360 // num_axes` is Python floor division
on non-negative integers, which is `Nat` division. -/
def create_mandala_prompt (user_inspiration style_preference color_scheme : String)
    (num_axes : Nat) : String :=
  "Create a beautiful, intricate mandala art inspired by: " ++ user_inspiration ++
  ". \n    \n    The mandala should be:\n    - Perfectly symmetrical and circular with " ++
  toString num_axes ++ "-fold rotational symmetry" ++
  "\n    - " ++ toString num_axes ++ " identical sections radiating from the center" ++
  "\n    - Highly detailed with intricate patterns " ++ "repeating every " ++
  toString (360 / num_axes) ++ " degrees" ++
  "\n    - " ++ style_preference ++ " style" ++
  "\n    - Using " ++ color_scheme ++ " color palette" ++
  "\n    - Centered on a clean background" ++
  "\n    - Sacred geometry elements with " ++ toString num_axes ++ "-way symmetry" ++
  "\n    - Meditative and harmonious design" ++
  "\n    - Professional digital art quality" ++
  "\n    \n    Style: Detailed mandala artwork, spiritual, geometric, ornate patterns, " ++
  toString num_axes ++ "-fold symmetry"

/-- `needle` occurs verbatim (as a contiguous substring) in `haystack`. -/
def containsStr (haystack needle : String) : Prop :=
  ∃ s t : List Char, haystack.data = s ++ needle.data ++ t

/-- The standard base64 alphabet used by Python's `base64.b64encode`. -/
def b64Alphabet : List Char :=
  "ABCDEFGHIJKLMNOPQRSTUVWXYZabcdefghijklmnopqrstuvwxyz0123456789+/".data

/-- The base64 character for a six-bit group. -/
def sixBitToChar (n : Nat) : Char :=
  b64Alphabet.getD n '?'

/-- The six-bit group for a base64 character, if any. -/
def charToSixBit (c : Char) : Option Nat :=
  let i := List.indexOf c b64Alphabet
  if i < 64 then some i else none

/-- Standard base64 of a byte sequence (bytes as naturals below 256),
processing three bytes into four characters, with `=` padding — the
behaviour of `base64.b64encode(image_bytes).decode()` at line 114. -/
def b64encodeBytes : List Nat → List Char
  | [] => []
  | [b1] =>
    [sixBitToChar (b1 / 4), sixBitToChar (b1 % 4 * 16), '=', '=']
  | [b1, b2] =>
    [sixBitToChar (b1 / 4), sixBitToChar (b1 % 4 * 16 + b2 / 16),
      sixBitToChar (b2 % 16 * 4), '=']
  | b1 :: b2 :: b3 :: rest =>
    sixBitToChar (b1 / 4) :: sixBitToChar (b1 % 4 * 16 + b2 / 16) ::
      sixBitToChar (b2 % 16 * 4 + b3 / 64) :: sixBitToChar (b3 % 64) ::
      b64encodeBytes rest

/-- Standard base64 decoding of a character sequence back to bytes,
the inverse direction used to state the round-trip law for the
data-URI payload. -/
def b64decodeBytes : List Char → Option (List Nat)
  | [] => some []
  | c1 :: c2 :: c3 :: c4 :: rest =>
    match charToSixBit c1, charToSixBit c2 with
    | some n1, some n2 =>
      if c3 = '=' then
        if c4 = '=' ∧ rest = [] ∧ n2 % 16 = 0 then
          some [n1 * 4 + n2 / 16]
        else none
      else
        match charToSixBit c3 with
        | some n3 =>
          if c4 = '=' then
            if rest = [] ∧ n3 % 4 = 0 then
              some [n1 * 4 + n2 / 16, n2 % 16 * 16 + n3 / 4]
            else none
          else
            match charToSixBit c4, b64decodeBytes rest with
            | some n4, some tail =>
              some ((n1 * 4 + n2 / 16) :: (n2 % 16 * 16 + n3 / 4) ::
                (n3 % 4 * 64 + n4) :: tail)
            | _, _ => none
        | none => none
    | _, _ => none
  | _ => none

/-- The download anchor built by `create_download_link` (lines 112–116):
the f-string embeds the base64 of the image bytes in a `data:` URI
together with the given filename. -/
def create_download_link (image_bytes : List Nat) (filename : String) : String :=
  "<a href=\"data:image/png;base64," ++ String.mk (b64encodeBytes image_bytes) ++
  "\" download=\"" ++ filename ++
  "\" class=\"download-btn\">📥 Download Mandala</a>"

/-- The base64 payload embedded in the anchor's `data:` URI: the
characters between "base64," (the first 31 characters of the anchor
are the fixed literal up to and including it) and the closing quote. -/
def dataUriPayload (href : String) : List Char :=
  (href.data.drop 31).takeWhile (fun c => c != '"')

/-- The inspiration actually used by `main`: the example-picker selection
replaces the typed text whenever the selection is non-empty
(lines 203–205, Python string truthiness). -/
def effective_inspiration (typed selected_example : String) : String :=
  if selected_example = "" then typed else selected_example

/-- How one click of the generate button ends (lines 211–243). -/
inductive SubmitOutcome where
  | missingApiKey
  | missingInspiration
  | invalidClient
  | generationFailed
  | generated
deriving DecidableEq

/-- Result of one click of the generate button: the session state after
the handler, the user-facing outcome, and whether the provider
(`client.images.generate`) was called. -/
structure SubmitResult where
  state : SessionState
  outcome : SubmitOutcome
  providerCalled : Bool
deriving DecidableEq

/-- The generate-button handler (lines 211–243).  `clientOk` is the
oracle for `initialize_openai` succeeding; `genResult` is the oracle
for `generate_mandala` (the provider call): `some url` on success,
`none` when the call raises (authentication failure or any other
generation error, lines 95–97).  Python's `not s.strip()` is true
exactly when every character of `s` is whitespace. -/
def handle_generate_click (clientOk : Bool) (genResult : Option String)
    (api_key typed selected_example style_preference color_scheme : String)
    (num_axes : Nat) (s : SessionState) : SubmitResult :=
  let user_inspiration := effective_inspiration typed selected_example
  if api_key.data.all Char.isWhitespace then
    { state := s, outcome := SubmitOutcome.missingApiKey, providerCalled := false }
  else if user_inspiration.data.all Char.isWhitespace then
    { state := s, outcome := SubmitOutcome.missingInspiration, providerCalled := false }
  else if clientOk = false then
    { state := s, outcome := SubmitOutcome.invalidClient, providerCalled := false }
  else
    let prompt := create_mandala_prompt user_inspiration style_preference color_scheme num_axes
    let s1 : SessionState := { s with current_prompt := some prompt }
    match genResult with
    | none =>
      { state := s1, outcome := SubmitOutcome.generationFailed, providerCalled := true }
    | some url =>
      let s2 : SessionState :=
        { s1 with current_image_url := some url,
                  current_inspiration := some user_inspiration,
                  current_num_axes := some num_axes }
      { state := s2, outcome := SubmitOutcome.generated, providerCalled := true }

/-- What the result column produced: whether `download_image` was
called, and the image bytes displayed (if any). -/
structure RenderResult where
  downloadAttempted : Bool
  displayedImage : Option (List Nat)
deriving DecidableEq

/-- The result column of `main` (lines 249–255): if a
`current_image_url` is held, the image is downloaded from it (oracle
`download`, modelling `download_image`) and displayed when the
download succeeds; otherwise nothing is fetched or shown. -/
def render_result_panel (download : String → Option (List Nat)) (s : SessionState) :
    RenderResult :=
  match s.current_image_url with
  | none => { downloadAttempted := false, displayedImage := none }
  | some url =>
    match download url with
    | none => { downloadAttempted := true, displayedImage := none }
    | some image_bytes => { downloadAttempted := true, displayedImage := some image_bytes }

theorem data_append (a b : String) : (a ++ b).data = a.data ++ b.data := rfl

theorem containsStr_self (p : String) : containsStr p p :=
  ⟨[], [], by simp⟩

theorem containsStr_app_left {a p : String} (b : String) (h : containsStr a p) :
    containsStr (a ++ b) p := by
  obtain ⟨s, t, hs⟩ := h
  exact ⟨s, t ++ b.data, by simp [data_append, hs]⟩

theorem containsStr_app_right {b p : String} (a : String) (h : containsStr b p) :
    containsStr (a ++ b) p := by
  obtain ⟨s, t, hs⟩ := h
  exact ⟨a.data ++ s, t, by simp [data_append, hs]⟩

theorem containsStr_tail1 (A p : String) : containsStr (A ++ p) p :=
  ⟨A.data, [], by simp [data_append]⟩

theorem containsStr_tail2 (A p q : String) : containsStr (A ++ p ++ q) (p ++ q) :=
  ⟨A.data, [], by simp [data_append]⟩

theorem containsStr_tail3 (A p q r : String) :
    containsStr (A ++ p ++ q ++ r) (p ++ q ++ r) :=
  ⟨A.data, [], by simp [data_append]⟩

theorem containsStr_congr {h p q : String} (e : p = q) (hc : containsStr h p) :
    containsStr h q := e ▸ hc

/-- C1: For every non-empty inspiration, style label, color label and axis
count N in [3,12], the prompt contains the inspiration verbatim, the
N-fold-rotational-symmetry phrase, the N-identical-sections phrase, the
degree interval `360 / N` (floor division), and the style and color labels
verbatim; for N = 7 the interval reads "51 degrees". -/
theorem create_mandala_prompt_contains (insp sty col : String) (N : Nat)
    (h1 : insp ≠ "") (h2 : 3 ≤ N) (h3 : N ≤ 12) :
    containsStr (create_mandala_prompt insp sty col N) insp ∧
    containsStr (create_mandala_prompt insp sty col N)
      (toString N ++ "-fold rotational symmetry") ∧
    containsStr (create_mandala_prompt insp sty col N)
      (toString N ++ " identical sections radiating from the center") ∧
    containsStr (create_mandala_prompt insp sty col N)
      (toString (360 / N) ++ " degrees") ∧
    containsStr (create_mandala_prompt insp sty col N) sty ∧
    containsStr (create_mandala_prompt insp sty col N) col ∧
    (N = 7 → containsStr (create_mandala_prompt insp sty col N) ("51 degrees")) := by
  unfold create_mandala_prompt
  refine ⟨?_, ?_, ?_, ?_, ?_, ?_, ?_⟩
  · exact containsStr_app_left _ <| containsStr_app_left _ <| containsStr_app_left _ <|
      containsStr_app_left _ <| containsStr_app_left _ <| containsStr_app_left _ <|
      containsStr_app_left _ <| containsStr_app_left _ <| containsStr_app_left _ <|
      containsStr_app_left _ <| containsStr_app_left _ <| containsStr_app_left _ <|
      containsStr_app_left _ <| containsStr_app_left _ <| containsStr_app_left _ <|
      containsStr_app_left _ <| containsStr_app_left _ <| containsStr_app_left _ <|
      containsStr_app_left _ <| containsStr_app_left _ <| containsStr_app_left _ <|
      containsStr_app_left _ <| containsStr_app_left _ <| containsStr_app_left _ <|
      containsStr_app_left _ <| containsStr_tail1 _ _
  · exact containsStr_app_left _ <| containsStr_app_left _ <| containsStr_app_left _ <|
      containsStr_app_left _ <| containsStr_app_left _ <| containsStr_app_left _ <|
      containsStr_app_left _ <| containsStr_app_left _ <| containsStr_app_left _ <|
      containsStr_app_left _ <| containsStr_app_left _ <| containsStr_app_left _ <|
      containsStr_app_left _ <| containsStr_app_left _ <| containsStr_app_left _ <|
      containsStr_app_left _ <| containsStr_app_left _ <| containsStr_app_left _ <|
      containsStr_app_left _ <| containsStr_app_left _ <| containsStr_app_left _ <|
      containsStr_app_left _ <| containsStr_tail2 _ _ _
  · exact containsStr_app_left _ <| containsStr_app_left _ <| containsStr_app_left _ <|
      containsStr_app_left _ <| containsStr_app_left _ <| containsStr_app_left _ <|
      containsStr_app_left _ <| containsStr_app_left _ <| containsStr_app_left _ <|
      containsStr_app_left _ <| containsStr_app_left _ <| containsStr_app_left _ <|
      containsStr_app_left _ <| containsStr_app_left _ <| containsStr_app_left _ <|
      containsStr_app_left _ <| containsStr_app_left _ <| containsStr_app_left _ <|
      containsStr_app_left _ <| containsStr_tail2 _ _ _
  · exact containsStr_app_left _ <| containsStr_app_left _ <| containsStr_app_left _ <|
      containsStr_app_left _ <| containsStr_app_left _ <| containsStr_app_left _ <|
      containsStr_app_left _ <| containsStr_app_left _ <| containsStr_app_left _ <|
      containsStr_app_left _ <| containsStr_app_left _ <| containsStr_app_left _ <|
      containsStr_app_left _ <| containsStr_app_left _ <| containsStr_app_left _ <|
      containsStr_tail2 _ _ _
  · exact containsStr_app_left _ <| containsStr_app_left _ <| containsStr_app_left _ <|
      containsStr_app_left _ <| containsStr_app_left _ <| containsStr_app_left _ <|
      containsStr_app_left _ <| containsStr_app_left _ <| containsStr_app_left _ <|
      containsStr_app_left _ <| containsStr_app_left _ <| containsStr_app_left _ <|
      containsStr_app_left _ <| containsStr_tail1 _ _
  · exact containsStr_app_left _ <| containsStr_app_left _ <| containsStr_app_left _ <|
      containsStr_app_left _ <| containsStr_app_left _ <| containsStr_app_left _ <|
      containsStr_app_left _ <| containsStr_app_left _ <| containsStr_app_left _ <|
      containsStr_app_left _ <| containsStr_tail1 _ _
  · intro hN
    subst hN
    refine containsStr_congr ?_ (containsStr_app_left _ <| containsStr_app_left _ <|
      containsStr_app_left _ <| containsStr_app_left _ <| containsStr_app_left _ <|
      containsStr_app_left _ <| containsStr_app_left _ <| containsStr_app_left _ <|
      containsStr_app_left _ <| containsStr_app_left _ <| containsStr_app_left _ <|
      containsStr_app_left _ <| containsStr_app_left _ <| containsStr_app_left _ <|
      containsStr_app_left _ <| containsStr_tail2 _ (toString (360 / 7)) (" degrees"))
    decide

/-- Witness for C1: the guarantees hold at a concrete instantiation
(inspiration "lotus", style "Minimalist", color "Earth tones", N = 7). -/
theorem create_mandala_prompt_contains_witness :
    ("lotus" : String) ≠ "" ∧ 3 ≤ 7 ∧ 7 ≤ 12 ∧
    (containsStr (create_mandala_prompt ("lotus") ("Minimalist") ("Earth tones") 7)
        ("lotus") ∧
      containsStr (create_mandala_prompt ("lotus") ("Minimalist") ("Earth tones") 7)
        (toString 7 ++ "-fold rotational symmetry") ∧
      containsStr (create_mandala_prompt ("lotus") ("Minimalist") ("Earth tones") 7)
        (toString 7 ++ " identical sections radiating from the center") ∧
      containsStr (create_mandala_prompt ("lotus") ("Minimalist") ("Earth tones") 7)
        (toString (360 / 7) ++ " degrees") ∧
      containsStr (create_mandala_prompt ("lotus") ("Minimalist") ("Earth tones") 7)
        ("Minimalist") ∧
      containsStr (create_mandala_prompt ("lotus") ("Minimalist") ("Earth tones") 7)
        ("Earth tones") ∧
      (7 = 7 → containsStr (create_mandala_prompt ("lotus") ("Minimalist") ("Earth tones") 7)
        ("51 degrees"))) :=
  ⟨by decide, by decide, by decide,
    create_mandala_prompt_contains ("lotus") ("Minimalist") ("Earth tones") 7
      (by decide) (by decide) (by decide)⟩

/-- C2: at the concrete inputs of the spec scenario (inspiration
"Ocean waves and seashells", style "Modern geometric", color
"Vibrant rainbow", axes 8) the prompt contains the five required literal
substrings. -/
theorem create_mandala_prompt_scenario8 :
    containsStr (create_mandala_prompt ("Ocean waves and seashells") ("Modern geometric")
      ("Vibrant rainbow") 8) ("Ocean waves and seashells") ∧
    containsStr (create_mandala_prompt ("Ocean waves and seashells") ("Modern geometric")
      ("Vibrant rainbow") 8) ("8-fold rotational symmetry") ∧
    containsStr (create_mandala_prompt ("Ocean waves and seashells") ("Modern geometric")
      ("Vibrant rainbow") 8) ("repeating every 45 degrees") ∧
    containsStr (create_mandala_prompt ("Ocean waves and seashells") ("Modern geometric")
      ("Vibrant rainbow") 8) ("Modern geometric") ∧
    containsStr (create_mandala_prompt ("Ocean waves and seashells") ("Modern geometric")
      ("Vibrant rainbow") 8) ("Vibrant rainbow") := by
  unfold create_mandala_prompt
  refine ⟨?_, ?_, ?_, ?_, ?_⟩
  · exact containsStr_app_left _ <| containsStr_app_left _ <| containsStr_app_left _ <|
      containsStr_app_left _ <| containsStr_app_left _ <| containsStr_app_left _ <|
      containsStr_app_left _ <| containsStr_app_left _ <| containsStr_app_left _ <|
      containsStr_app_left _ <| containsStr_app_left _ <| containsStr_app_left _ <|
      containsStr_app_left _ <| containsStr_app_left _ <| containsStr_app_left _ <|
      containsStr_app_left _ <| containsStr_app_left _ <| containsStr_app_left _ <|
      containsStr_app_left _ <| containsStr_app_left _ <| containsStr_app_left _ <|
      containsStr_app_left _ <| containsStr_app_left _ <| containsStr_app_left _ <|
      containsStr_app_left _ <| containsStr_tail1 _ _
  · refine containsStr_congr ?_ (containsStr_app_left _ <| containsStr_app_left _ <|
      containsStr_app_left _ <| containsStr_app_left _ <| containsStr_app_left _ <|
      containsStr_app_left _ <| containsStr_app_left _ <| containsStr_app_left _ <|
      containsStr_app_left _ <| containsStr_app_left _ <| containsStr_app_left _ <|
      containsStr_app_left _ <| containsStr_app_left _ <| containsStr_app_left _ <|
      containsStr_app_left _ <| containsStr_app_left _ <| containsStr_app_left _ <|
      containsStr_app_left _ <| containsStr_app_left _ <| containsStr_app_left _ <|
      containsStr_app_left _ <| containsStr_app_left _ <|
      containsStr_tail2 _ (toString 8) ("-fold rotational symmetry"))
    decide
  · refine containsStr_congr ?_ (containsStr_app_left _ <| containsStr_app_left _ <|
      containsStr_app_left _ <| containsStr_app_left _ <| containsStr_app_left _ <|
      containsStr_app_left _ <| containsStr_app_left _ <| containsStr_app_left _ <|
      containsStr_app_left _ <| containsStr_app_left _ <| containsStr_app_left _ <|
      containsStr_app_left _ <| containsStr_app_left _ <| containsStr_app_left _ <|
      containsStr_app_left _ <|
      containsStr_tail3 _ ("repeating every ") (toString (360 / 8)) (" degrees"))
    decide
  · exact containsStr_app_left _ <| containsStr_app_left _ <| containsStr_app_left _ <|
      containsStr_app_left _ <| containsStr_app_left _ <| containsStr_app_left _ <|
      containsStr_app_left _ <| containsStr_app_left _ <| containsStr_app_left _ <|
      containsStr_app_left _ <| containsStr_app_left _ <| containsStr_app_left _ <|
      containsStr_app_left _ <| containsStr_tail1 _ _
  · exact containsStr_app_left _ <| containsStr_app_left _ <| containsStr_app_left _ <|
      containsStr_app_left _ <| containsStr_app_left _ <| containsStr_app_left _ <|
      containsStr_app_left _ <| containsStr_app_left _ <| containsStr_app_left _ <|
      containsStr_app_left _ <| containsStr_tail1 _ _

/-- C3: `create_mandala_prompt` is deterministic — two runs on identical
inputs return the identical prompt string.  (The embedding is a pure
function, reflecting that the source function only builds a string and
performs no I/O or state mutation.) -/
theorem create_mandala_prompt_deterministic (i1 i2 s1 s2 c1 c2 : String) (n1 n2 : Nat)
    (hi : i1 = i2) (hs : s1 = s2) (hc : c1 = c2) (hn : n1 = n2) :
    create_mandala_prompt i1 s1 c1 n1 = create_mandala_prompt i2 s2 c2 n2 := by
  subst hi; subst hs; subst hc; subst hn; rfl

/-- Witness for C3 at a concrete input. -/
theorem create_mandala_prompt_deterministic_witness :
    ("sea" : String) = "sea" ∧ ("Celtic inspired" : String) = "Celtic inspired" ∧
    ("Jewel tones" : String) = "Jewel tones" ∧ (5 : Nat) = 5 ∧
    create_mandala_prompt ("sea") ("Celtic inspired") ("Jewel tones") 5 =
      create_mandala_prompt ("sea") ("Celtic inspired") ("Jewel tones") 5 :=
  ⟨rfl, rfl, rfl, rfl,
    create_mandala_prompt_deterministic ("sea") ("sea") ("Celtic inspired")
      ("Celtic inspired") ("Jewel tones") ("Jewel tones") 5 5 rfl rfl rfl rfl⟩

theorem charToSixBit_sixBitToChar {n : Nat} (h : n < 64) :
    charToSixBit (sixBitToChar n) = some n := by
  have key : ∀ m, m < 64 → charToSixBit (sixBitToChar m) = some m := by decide
  exact key n h

theorem sixBitToChar_ne_pad {n : Nat} (h : n < 64) : sixBitToChar n ≠ '=' := by
  have key : ∀ m, m < 64 → sixBitToChar m ≠ '=' := by decide
  exact key n h

theorem sixBitToChar_ne_quote (n : Nat) : (sixBitToChar n != '"') = true := by
  by_cases h : n < 64
  · have key : ∀ m, m < 64 → (sixBitToChar m != '"') = true := by decide
    exact key n h
  · have hd : sixBitToChar n = '?' := by
      unfold sixBitToChar
      apply List.getD_eq_default
      have hl : b64Alphabet.length = 64 := by decide
      omega
    rw [hd]; decide

/-- Base64 decoding is a left inverse of encoding on byte sequences. -/
theorem b64_roundtrip : ∀ (l : List Nat), (∀ b ∈ l, b < 256) →
    b64decodeBytes (b64encodeBytes l) = some l
  | [], _ => rfl
  | [b1], h => by
    have hb1 : b1 < 256 := h b1 (by simp)
    have h1 := charToSixBit_sixBitToChar (n := b1 / 4) (by omega)
    have h2 := charToSixBit_sixBitToChar (n := b1 % 4 * 16) (by omega)
    have e0 : b1 % 4 * 16 % 16 = 0 := by omega
    simp [b64encodeBytes, b64decodeBytes, h1, h2, e0]
    omega
  | [b1, b2], h => by
    have hb1 : b1 < 256 := h b1 (by simp)
    have hb2 : b2 < 256 := h b2 (by simp)
    have h1 := charToSixBit_sixBitToChar (n := b1 / 4) (by omega)
    have h2 := charToSixBit_sixBitToChar (n := b1 % 4 * 16 + b2 / 16) (by omega)
    have h3 := charToSixBit_sixBitToChar (n := b2 % 16 * 4) (by omega)
    have hne3 : sixBitToChar (b2 % 16 * 4) ≠ '=' := sixBitToChar_ne_pad (by omega)
    have e0 : b2 % 16 * 4 % 4 = 0 := by omega
    simp [b64encodeBytes, b64decodeBytes, h1, h2, h3, hne3, e0]
    omega
  | b1 :: b2 :: b3 :: rest, h => by
    have hb1 : b1 < 256 := h b1 (by simp)
    have hb2 : b2 < 256 := h b2 (by simp)
    have hb3 : b3 < 256 := h b3 (by simp)
    have ih : b64decodeBytes (b64encodeBytes rest) = some rest :=
      b64_roundtrip rest (fun b hb => h b (by simp [hb]))
    have h1 := charToSixBit_sixBitToChar (n := b1 / 4) (by omega)
    have h2 := charToSixBit_sixBitToChar (n := b1 % 4 * 16 + b2 / 16) (by omega)
    have h3 := charToSixBit_sixBitToChar (n := b2 % 16 * 4 + b3 / 64) (by omega)
    have h4 := charToSixBit_sixBitToChar (n := b3 % 64) (by omega)
    have hne3 : sixBitToChar (b2 % 16 * 4 + b3 / 64) ≠ '=' := sixBitToChar_ne_pad (by omega)
    have hne4 : sixBitToChar (b3 % 64) ≠ '=' := sixBitToChar_ne_pad (by omega)
    simp [b64encodeBytes, b64decodeBytes, h1, h2, h3, h4, hne3, hne4, ih]
    omega

theorem b64encode_chars_ne_quote : ∀ (l : List Nat), ∀ c ∈ b64encodeBytes l,
    (c != '"') = true
  | [], c, hc => by simp [b64encodeBytes] at hc
  | [b1], c, hc => by
    simp only [b64encodeBytes, List.mem_cons] at hc
    rcases hc with h | h | h | h | h
    · subst h; exact sixBitToChar_ne_quote _
    · subst h; exact sixBitToChar_ne_quote _
    · subst h; decide
    · subst h; decide
    · simp at h
  | [b1, b2], c, hc => by
    simp only [b64encodeBytes, List.mem_cons] at hc
    rcases hc with h | h | h | h | h
    · subst h; exact sixBitToChar_ne_quote _
    · subst h; exact sixBitToChar_ne_quote _
    · subst h; exact sixBitToChar_ne_quote _
    · subst h; decide
    · simp at h
  | b1 :: b2 :: b3 :: rest, c, hc => by
    simp only [b64encodeBytes, List.mem_cons] at hc
    rcases hc with h | h | h | h | h
    · subst h; exact sixBitToChar_ne_quote _
    · subst h; exact sixBitToChar_ne_quote _
    · subst h; exact sixBitToChar_ne_quote _
    · subst h; exact sixBitToChar_ne_quote _
    · exact b64encode_chars_ne_quote rest c h

theorem takeWhile_append_sentinel {α : Type} (p : α → Bool) :
    ∀ (l1 : List α) (c : α) (l2 : List α), (∀ x ∈ l1, p x = true) → p c = false →
    (l1 ++ c :: l2).takeWhile p = l1
  | [], c, l2, _, hc => by simp [List.takeWhile_cons, hc]
  | a :: t, c, l2, h, hc => by
    have ha : p a = true := h a (by simp)
    simp [List.takeWhile_cons, ha,
      takeWhile_append_sentinel p t c l2 (fun x hx => h x (by simp [hx])) hc]

theorem data_mk (l : List Char) : (String.mk l).data = l := rfl

/-- The payload of the anchor's data URI is exactly the base64 of the
image bytes. -/
theorem dataUriPayload_create_download_link (image_bytes : List Nat) (filename : String) :
    dataUriPayload (create_download_link image_bytes filename) =
      b64encodeBytes image_bytes := by
  have hq : ("\" download=\"" : String).data = '"' :: (" download=\"" : String).data := by
    decide
  have h1 : (create_download_link image_bytes filename).data =
      ("<a href=\"data:image/png;base64," : String).data ++
      (b64encodeBytes image_bytes ++ ('"' :: ((" download=\"" : String).data ++
        (filename.data ++
          ("\" class=\"download-btn\">📥 Download Mandala</a>" : String).data)))) := by
    unfold create_download_link
    rw [data_append, data_append, data_append, data_append, data_mk, hq]
    simp [List.append_assoc]
  have h31 : (31 : Nat) = ("<a href=\"data:image/png;base64," : String).data.length := by
    decide
  unfold dataUriPayload
  rw [h1, h31, List.drop_left]
  exact takeWhile_append_sentinel _ _ _ _
    (fun x hx => b64encode_chars_ne_quote image_bytes x hx) (by decide)

/-- C4: round-trip law for the export encoder — for every byte sequence,
the base64 payload embedded in the data URI produced by
`create_download_link` decodes back to exactly the input bytes. -/
theorem create_download_link_roundtrip (image_bytes : List Nat) (filename : String)
    (h : ∀ b ∈ image_bytes, b < 256) :
    b64decodeBytes (dataUriPayload (create_download_link image_bytes filename)) =
      some image_bytes := by
  rw [dataUriPayload_create_download_link]
  exact b64_roundtrip image_bytes h

/-- Witness for C4 at a concrete byte sequence (the PNG signature's first
six bytes) and a concrete timestamped filename. -/
theorem create_download_link_roundtrip_witness :
    (∀ b ∈ [137, 80, 78, 71, 13, 10], b < 256) ∧
    b64decodeBytes (dataUriPayload (create_download_link ([137, 80, 78, 71, 13, 10])
      ("mandala_20251012_120000.png"))) = some [137, 80, 78, 71, 13, 10] :=
  ⟨by decide, create_download_link_roundtrip ([137, 80, 78, 71, 13, 10])
    ("mandala_20251012_120000.png") (by decide)⟩

/-- C5: if the API key is empty or whitespace-only, or the effective
inspiration text is empty or whitespace-only, the click handler
short-circuits with a user-facing error before any network call: the
session state is unchanged and the provider is never called, so the
generation pipeline (provider call and subsequent image download) is
never invoked for this submission. -/
theorem validation_short_circuits (clientOk : Bool) (genResult : Option String)
    (api_key typed selected_example style_preference color_scheme : String)
    (num_axes : Nat) (s : SessionState)
    (h : api_key.data.all Char.isWhitespace = true ∨
      (effective_inspiration typed selected_example).data.all Char.isWhitespace = true) :
    (handle_generate_click clientOk genResult api_key typed selected_example
      style_preference color_scheme num_axes s).state = s ∧
    (handle_generate_click clientOk genResult api_key typed selected_example
      style_preference color_scheme num_axes s).providerCalled = false ∧
    ((handle_generate_click clientOk genResult api_key typed selected_example
      style_preference color_scheme num_axes s).outcome = SubmitOutcome.missingApiKey ∨
     (handle_generate_click clientOk genResult api_key typed selected_example
      style_preference color_scheme num_axes s).outcome = SubmitOutcome.missingInspiration) := by
  unfold handle_generate_click
  rcases h with h | h
  · simp [h]
  · by_cases hk : api_key.data.all Char.isWhitespace = true
    · simp [hk]
    · simp [hk, h]

/-- Witness for C5: empty API key, concrete remaining inputs. -/
theorem validation_short_circuits_witness :
    ((("" : String).data.all Char.isWhitespace = true ∨
      (effective_inspiration ("waves") ("")).data.all Char.isWhitespace = true)) ∧
    ((handle_generate_click true none ("") ("waves") ("") ("Minimalist") ("Earth tones") 8
      ⟨none, none, none, none⟩).state = ⟨none, none, none, none⟩ ∧
    (handle_generate_click true none ("") ("waves") ("") ("Minimalist") ("Earth tones") 8
      ⟨none, none, none, none⟩).providerCalled = false ∧
    ((handle_generate_click true none ("") ("waves") ("") ("Minimalist") ("Earth tones") 8
      ⟨none, none, none, none⟩).outcome = SubmitOutcome.missingApiKey ∨
     (handle_generate_click true none ("") ("waves") ("") ("Minimalist") ("Earth tones") 8
      ⟨none, none, none, none⟩).outcome = SubmitOutcome.missingInspiration)) :=
  ⟨Or.inl (by decide),
    validation_short_circuits true none ("") ("waves") ("") ("Minimalist") ("Earth tones") 8
      ⟨none, none, none, none⟩ (Or.inl (by decide))⟩

/-- C6: when the provider call fails (`generate_mandala` returns `None`,
covering authentication failure and any other generation error), the
session-state fields holding the last successful result — image URL,
inspiration, axes — retain their prior values, and the result panel
renders exactly as before (the prior result, if any, remains
displayed). -/
theorem generation_failure_preserves_result
    (api_key typed selected_example style_preference color_scheme : String)
    (num_axes : Nat) (s : SessionState)
    (hk : api_key.data.all Char.isWhitespace = false)
    (hi : (effective_inspiration typed selected_example).data.all Char.isWhitespace = false) :
    (handle_generate_click true none api_key typed selected_example style_preference
      color_scheme num_axes s).state.current_image_url = s.current_image_url ∧
    (handle_generate_click true none api_key typed selected_example style_preference
      color_scheme num_axes s).state.current_inspiration = s.current_inspiration ∧
    (handle_generate_click true none api_key typed selected_example style_preference
      color_scheme num_axes s).state.current_num_axes = s.current_num_axes ∧
    ∀ download, render_result_panel download (handle_generate_click true none api_key typed
      selected_example style_preference color_scheme num_axes s).state =
      render_result_panel download s := by
  unfold handle_generate_click
  refine ⟨by simp [hk, hi], by simp [hk, hi], by simp [hk, hi], ?_⟩
  intro download
  simp only [hk, hi, Bool.false_eq_true, if_false]
  unfold render_result_panel
  rfl

/-- Witness for C6 at concrete inputs over a non-empty prior state. -/
theorem generation_failure_preserves_result_witness :
    ("sk-abc" : String).data.all Char.isWhitespace = false ∧
    (effective_inspiration ("waves") ("")).data.all Char.isWhitespace = false ∧
    ((handle_generate_click true none ("sk-abc") ("waves") ("") ("Minimalist") ("Earth tones")
      8 ⟨some ("p0"), some ("u0"), some ("i0"), some 5⟩).state.current_image_url =
      (⟨some ("p0"), some ("u0"), some ("i0"), some 5⟩ : SessionState).current_image_url ∧
    (handle_generate_click true none ("sk-abc") ("waves") ("") ("Minimalist") ("Earth tones")
      8 ⟨some ("p0"), some ("u0"), some ("i0"), some 5⟩).state.current_inspiration =
      (⟨some ("p0"), some ("u0"), some ("i0"), some 5⟩ : SessionState).current_inspiration ∧
    (handle_generate_click true none ("sk-abc") ("waves") ("") ("Minimalist") ("Earth tones")
      8 ⟨some ("p0"), some ("u0"), some ("i0"), some 5⟩).state.current_num_axes =
      (⟨some ("p0"), some ("u0"), some ("i0"), some 5⟩ : SessionState).current_num_axes ∧
    ∀ download, render_result_panel download (handle_generate_click true none ("sk-abc")
      ("waves") ("") ("Minimalist") ("Earth tones") 8
      ⟨some ("p0"), some ("u0"), some ("i0"), some 5⟩).state =
      render_result_panel download ⟨some ("p0"), some ("u0"), some ("i0"), some 5⟩) :=
  ⟨by decide, by decide,
    generation_failure_preserves_result ("sk-abc") ("waves") ("") ("Minimalist")
      ("Earth tones") 8 ⟨some ("p0"), some ("u0"), some ("i0"), some 5⟩
      (by decide) (by decide)⟩

/-- C7 counterexample: a successful generation immediately followed by a
failing download of the new URL.  Contrary to the claim, the session
state does NOT retain the previous result: the prior image URL
`http://img/old` has been overwritten by `http://img/new` before the
download was even attempted, and with the new URL failing to download,
nothing is displayed. -/
theorem download_failure_loses_previous_result :
    (handle_generate_click true (some ("http://img/new")) ("sk-key") ("waves") ("")
      ("Minimalist") ("Earth tones") 8
      ⟨some ("p0"), some ("http://img/old"), some ("i0"), some 5⟩).outcome =
      SubmitOutcome.generated ∧
    (handle_generate_click true (some ("http://img/new")) ("sk-key") ("waves") ("")
      ("Minimalist") ("Earth tones") 8
      ⟨some ("p0"), some ("http://img/old"), some ("i0"), some 5⟩).state.current_image_url =
      some ("http://img/new") ∧
    (handle_generate_click true (some ("http://img/new")) ("sk-key") ("waves") ("")
      ("Minimalist") ("Earth tones") 8
      ⟨some ("p0"), some ("http://img/old"), some ("i0"), some 5⟩).state.current_image_url ≠
      some ("http://img/old") ∧
    render_result_panel (fun _ => none) (handle_generate_click true (some ("http://img/new"))
      ("sk-key") ("waves") ("") ("Minimalist") ("Earth tones") 8
      ⟨some ("p0"), some ("http://img/old"), some ("i0"), some 5⟩).state =
      { downloadAttempted := true, displayedImage := none } := by
  refine ⟨rfl, rfl, by decide, rfl⟩

/-- C7 amended: if the generation succeeds, the handler overwrites the
session state with the new URL, inspiration and axes (and prompt)
immediately, before any download is attempted; if the subsequent
download of the new URL then fails, a download error is surfaced with no
image displayed, and the previous result is no longer referenced by the
state. -/
theorem generation_success_overwrites_state
    (url api_key typed selected_example style_preference color_scheme : String)
    (num_axes : Nat) (s : SessionState)
    (hk : api_key.data.all Char.isWhitespace = false)
    (hi : (effective_inspiration typed selected_example).data.all Char.isWhitespace = false) :
    (handle_generate_click true (some url) api_key typed selected_example style_preference
      color_scheme num_axes s).state =
      { current_prompt := some (create_mandala_prompt
          (effective_inspiration typed selected_example) style_preference color_scheme
          num_axes),
        current_image_url := some url,
        current_inspiration := some (effective_inspiration typed selected_example),
        current_num_axes := some num_axes } ∧
    ∀ download, download url = none →
      render_result_panel download (handle_generate_click true (some url) api_key typed
        selected_example style_preference color_scheme num_axes s).state =
      { downloadAttempted := true, displayedImage := none } := by
  unfold handle_generate_click
  refine ⟨by simp [hk, hi], ?_⟩
  intro download hd
  simp only [hk, hi, Bool.false_eq_true, if_false]
  unfold render_result_panel
  simp [hd]

/-- Witness for the amended C7 at concrete inputs. -/
theorem generation_success_overwrites_state_witness :
    ("sk-key" : String).data.all Char.isWhitespace = false ∧
    (effective_inspiration ("waves") ("")).data.all Char.isWhitespace = false ∧
    ((handle_generate_click true (some ("http://img/new")) ("sk-key") ("waves") ("")
      ("Minimalist") ("Earth tones") 8
      ⟨some ("p0"), some ("http://img/old"), some ("i0"), some 5⟩).state =
      { current_prompt := some (create_mandala_prompt
          (effective_inspiration ("waves") ("")) ("Minimalist") ("Earth tones") 8),
        current_image_url := some ("http://img/new"),
        current_inspiration := some (effective_inspiration ("waves") ("")),
        current_num_axes := some 8 } ∧
    ∀ download, download ("http://img/new") = none →
      render_result_panel download (handle_generate_click true (some ("http://img/new"))
        ("sk-key") ("waves") ("") ("Minimalist") ("Earth tones") 8
        ⟨some ("p0"), some ("http://img/old"), some ("i0"), some 5⟩).state =
      { downloadAttempted := true, displayedImage := none }) :=
  ⟨by decide, by decide,
    generation_success_overwrites_state ("http://img/new") ("sk-key") ("waves") ("")
      ("Minimalist") ("Earth tones") 8
      ⟨some ("p0"), some ("http://img/old"), some ("i0"), some 5⟩ (by decide) (by decide)⟩

/-- C8 counterexample: after a successful pipeline run the session state
holds the image URL, and the presentation layer DOES fetch over the
network when rendering — `download_image` is called on every render of
the result column — contrary to the claim that the raw bytes are stored
once per run and never re-fetched by the presentation layer. -/
theorem render_refetches_counterexample :
    (handle_generate_click true (some ("http://img/a")) ("sk-key") ("waves") ("")
      ("Minimalist") ("Earth tones") 8 ⟨none, none, none, none⟩).outcome =
      SubmitOutcome.generated ∧
    (handle_generate_click true (some ("http://img/a")) ("sk-key") ("waves") ("")
      ("Minimalist") ("Earth tones") 8 ⟨none, none, none, none⟩).state.current_image_url =
      some ("http://img/a") ∧
    (render_result_panel (fun _ => some [1, 2, 3]) (handle_generate_click true
      (some ("http://img/a")) ("sk-key") ("waves") ("") ("Minimalist") ("Earth tones") 8
      ⟨none, none, none, none⟩).state).downloadAttempted = true ∧
    (render_result_panel (fun _ => some [1, 2, 3]) (handle_generate_click true
      (some ("http://img/a")) ("sk-key") ("waves") ("") ("Minimalist") ("Earth tones") 8
      ⟨none, none, none, none⟩).state).displayedImage = some [1, 2, 3] := by
  refine ⟨rfl, rfl, rfl, rfl⟩

/-- C8 amended: after every successful pipeline run the session state
holds the image URL — not the raw bytes — together with the
inspiration, axes and prompt of that run; the presentation layer
re-downloads the bytes from the stored URL on every render of the
result column. -/
theorem success_stores_url_and_render_refetches
    (url api_key typed selected_example style_preference color_scheme : String)
    (num_axes : Nat) (s : SessionState)
    (hk : api_key.data.all Char.isWhitespace = false)
    (hi : (effective_inspiration typed selected_example).data.all Char.isWhitespace = false) :
    (handle_generate_click true (some url) api_key typed selected_example style_preference
      color_scheme num_axes s).state =
      { current_prompt := some (create_mandala_prompt
          (effective_inspiration typed selected_example) style_preference color_scheme
          num_axes),
        current_image_url := some url,
        current_inspiration := some (effective_inspiration typed selected_example),
        current_num_axes := some num_axes } ∧
    ∀ download, (render_result_panel download (handle_generate_click true (some url) api_key
      typed selected_example style_preference color_scheme num_axes s).state 
      ).downloadAttempted = true := by
  unfold handle_generate_click
  refine ⟨by simp [hk, hi], ?_⟩
  intro download
  simp only [hk, hi, Bool.false_eq_true, if_false]
  unfold render_result_panel
  cases hd : download url <;> simp [hd]

/-- Witness for the amended C8 at concrete inputs. -/
theorem success_stores_url_and_render_refetches_witness :
    ("sk-key" : String).data.all Char.isWhitespace = false ∧
    (effective_inspiration ("stars") ("")).data.all Char.isWhitespace = false ∧
    ((handle_generate_click true (some ("http://img/a")) ("sk-key") ("stars") ("")
      ("Psychedelic") ("Jewel tones") 12 ⟨none, none, none, none⟩).state =
      { current_prompt := some (create_mandala_prompt
          (effective_inspiration ("stars") ("")) ("Psychedelic") ("Jewel tones") 12),
        current_image_url := some ("http://img/a"),
        current_inspiration := some (effective_inspiration ("stars") ("")),
        current_num_axes := some 12 } ∧
    ∀ download, (render_result_panel download (handle_generate_click true
      (some ("http://img/a")) ("sk-key") ("stars") ("") ("Psychedelic") ("Jewel tones") 12
      ⟨none, none, none, none⟩).state).downloadAttempted = true) :=
  ⟨by decide, by decide,
    success_stores_url_and_render_refetches ("http://img/a") ("sk-key") ("stars") ("")
      ("Psychedelic") ("Jewel tones") 12 ⟨none, none, none, none⟩ (by decide) (by decide)⟩

/-- C9: a non-empty example-picker selection replaces the typed free-text
inspiration entirely: the effective inspiration equals the selection,
the handler's result does not depend on the typed text at all, and a
successful submission stores inspiration and prompt built from the
selection. -/
theorem example_selection_replaces_typed
    (clientOk : Bool) (genResult : Option String)
    (api_key typed typed2 selected_example style_preference color_scheme : String)
    (num_axes : Nat) (s : SessionState)
    (hsel : selected_example ≠ "") :
    effective_inspiration typed selected_example = selected_example ∧
    handle_generate_click clientOk genResult api_key typed selected_example
        style_preference color_scheme num_axes s =
      handle_generate_click clientOk genResult api_key typed2 selected_example
        style_preference color_scheme num_axes s ∧
    ((handle_generate_click clientOk genResult api_key typed selected_example
        style_preference color_scheme num_axes s).outcome = SubmitOutcome.generated →
      (handle_generate_click clientOk genResult api_key typed selected_example
        style_preference color_scheme num_axes s).state.current_inspiration =
        some selected_example ∧
      (handle_generate_click clientOk genResult api_key typed selected_example
        style_preference color_scheme num_axes s).state.current_prompt =
        some (create_mandala_prompt selected_example style_preference color_scheme
          num_axes)) := by
  have he : ∀ t, effective_inspiration t selected_example = selected_example := by
    intro t
    unfold effective_inspiration
    rw [if_neg hsel]
  refine ⟨he typed, ?_, ?_⟩
  · unfold handle_generate_click
    rw [he typed, he typed2]
  · unfold handle_generate_click
    rw [he typed]
    by_cases hk : api_key.data.all Char.isWhitespace = true
    · simp [hk]
    · by_cases hi : selected_example.data.all Char.isWhitespace = true
      · simp [hk, hi]
      · cases hcl : clientOk
        · simp [hk, hi]
        · cases genResult <;> simp [hk, hi]

/-- Witness for C9 at a concrete non-empty selection. -/
theorem example_selection_replaces_typed_witness :
    ("Ocean waves and seashells" : String) ≠ "" ∧
    (effective_inspiration ("typed text") ("Ocean waves and seashells") =
      "Ocean waves and seashells" ∧
    handle_generate_click true (some ("http://u")) ("sk-key") ("typed text")
        ("Ocean waves and seashells") ("Minimalist") ("Earth tones") 8
        ⟨none, none, none, none⟩ =
      handle_generate_click true (some ("http://u")) ("sk-key") ("other text")
        ("Ocean waves and seashells") ("Minimalist") ("Earth tones") 8
        ⟨none, none, none, none⟩ ∧
    ((handle_generate_click true (some ("http://u")) ("sk-key") ("typed text")
        ("Ocean waves and seashells") ("Minimalist") ("Earth tones") 8
        ⟨none, none, none, none⟩).outcome = SubmitOutcome.generated →
      (handle_generate_click true (some ("http://u")) ("sk-key") ("typed text")
        ("Ocean waves and seashells") ("Minimalist") ("Earth tones") 8
        ⟨none, none, none, none⟩).state.current_inspiration =
        some ("Ocean waves and seashells") ∧
      (handle_generate_click true (some ("http://u")) ("sk-key") ("typed text")
        ("Ocean waves and seashells") ("Minimalist") ("Earth tones") 8
        ⟨none, none, none, none⟩).state.current_prompt =
        some (create_mandala_prompt ("Ocean waves and seashells") ("Minimalist")
          ("Earth tones") 8))) :=
  ⟨by decide,
    example_selection_replaces_typed true (some ("http://u")) ("sk-key") ("typed text")
      ("other text") ("Ocean waves and seashells") ("Minimalist") ("Earth tones") 8
      ⟨none, none, none, none⟩ (by decide)⟩

/-- C10: the prompt field of the session state is written before the
provider call, so on a failed generation `current_prompt` is still
overwritten with the failed attempt's prompt even though the
image-result fields (URL, inspiration, axes) keep their prior values —
the metadata panel can therefore show a prompt that does not correspond
to the displayed image. -/
theorem prompt_written_before_provider_call
    (api_key typed selected_example style_preference color_scheme : String)
    (num_axes : Nat) (s : SessionState)
    (hk : api_key.data.all Char.isWhitespace = false)
    (hi : (effective_inspiration typed selected_example).data.all Char.isWhitespace = false) :
    (handle_generate_click true none api_key typed selected_example style_preference
      color_scheme num_axes s).providerCalled = true ∧
    (handle_generate_click true none api_key typed selected_example style_preference
      color_scheme num_axes s).outcome = SubmitOutcome.generationFailed ∧
    (handle_generate_click true none api_key typed selected_example style_preference
      color_scheme num_axes s).state.current_prompt =
      some (create_mandala_prompt (effective_inspiration typed selected_example)
        style_preference color_scheme num_axes) ∧
    (handle_generate_click true none api_key typed selected_example style_preference
      color_scheme num_axes s).state.current_image_url = s.current_image_url ∧
    (handle_generate_click true none api_key typed selected_example style_preference
      color_scheme num_axes s).state.current_inspiration = s.current_inspiration ∧
    (handle_generate_click true none api_key typed selected_example style_preference
      color_scheme num_axes s).state.current_num_axes = s.current_num_axes := by
  unfold handle_generate_click
  refine ⟨by simp [hk, hi], by simp [hk, hi], by simp [hk, hi], by simp [hk, hi],
    by simp [hk, hi], by simp [hk, hi]⟩

/-- Witness for C10 at concrete inputs over a non-empty prior state. -/
theorem prompt_written_before_provider_call_witness :
    ("sk-key" : String).data.all Char.isWhitespace = false ∧
    (effective_inspiration ("fire") ("")).data.all Char.isWhitespace = false ∧
    ((handle_generate_click true none ("sk-key") ("fire") ("") ("Tibetan style")
      ("Golden and amber") 9
      ⟨some ("p0"), some ("u0"), some ("i0"), some 4⟩).providerCalled = true ∧
    (handle_generate_click true none ("sk-key") ("fire") ("") ("Tibetan style")
      ("Golden and amber") 9
      ⟨some ("p0"), some ("u0"), some ("i0"), some 4⟩).outcome =
      SubmitOutcome.generationFailed ∧
    (handle_generate_click true none ("sk-key") ("fire") ("") ("Tibetan style")
      ("Golden and amber") 9
      ⟨some ("p0"), some ("u0"), some ("i0"), some 4⟩).state.current_prompt =
      some (create_mandala_prompt (effective_inspiration ("fire") ("")) ("Tibetan style")
        ("Golden and amber") 9) ∧
    (handle_generate_click true none ("sk-key") ("fire") ("") ("Tibetan style")
      ("Golden and amber") 9
      ⟨some ("p0"), some ("u0"), some ("i0"), some 4⟩).state.current_image_url =
      (⟨some ("p0"), some ("u0"), some ("i0"), some 4⟩ : SessionState).current_image_url ∧
    (handle_generate_click true none ("sk-key") ("fire") ("") ("Tibetan style")
      ("Golden and amber") 9
      ⟨some ("p0"), some ("u0"), some ("i0"), some 4⟩).state.current_inspiration =
      (⟨some ("p0"), some ("u0"), some ("i0"), some 4⟩ : SessionState).current_inspiration ∧
    (handle_generate_click true none ("sk-key") ("fire") ("") ("Tibetan style")
      ("Golden and amber") 9
      ⟨some ("p0"), some ("u0"), some ("i0"), some 4⟩).state.current_num_axes =
      (⟨some ("p0"), some ("u0"), some ("i0"), some 4⟩ : SessionState).current_num_axes) :=
  ⟨by decide, by decide,
    prompt_written_before_provider_call ("sk-key") ("fire") ("") ("Tibetan style")
      ("Golden and amber") 9 ⟨some ("p0"), some ("u0"), some ("i0"), some 4⟩
      (by decide) (by decide)⟩
